import Mathlib

/-!
Verification development for the solar/battery/tariff simulator in `calc.py`.

All monetary and energy quantities are embedded as rationals (`ℚ`); the Python
source computes with floats, but every claim checked here concerns exact
arithmetic identities and order comparisons, which the rational embedding
captures. Mutable objects (panel, battery, tariff accumulator) are embedded as
immutable states threaded explicitly: each simulation function returns its
result paired with the updated state.
-/

namespace Solar

/-- Simulation time step size (hr); module-level constant `time_step = 1`. -/
def time_step : ℚ := 1

/-- State of a `SolarPanel` object: `power` is the mutable current power output
(initialised to the rated standard-test-condition power), the other fields are
the constructor parameters `tcp`, `degradation`, `nmot`, `efficiency`. -/
structure SolarPanel where
  power : ℚ
  tcp : ℚ
  degradation : ℚ
  nmot : ℚ
  efficiency : ℚ
deriving DecidableEq

/-- `solar_sim(panel, irr, temp_a)`: energy output (kWh) of a solar panel for a
single time step, returned together with the degraded panel state. The cell
temperature `temp_p` is the constant 40 (the physical thermal model in the
source is commented out). `pout` is computed from the panel power before the
degradation update, exactly as the source orders the two statements. -/
def solar_sim (panel : SolarPanel) (irr temp_a : ℚ) : ℚ × SolarPanel :=
  let irr_stc : ℚ := 1
  let temp_stc : ℚ := 25
  let temp_p : ℚ := 40
  let pout := panel.power * panel.efficiency * irr / irr_stc * (1 + panel.tcp * (temp_p - temp_stc))
  let panel' := { panel with power := panel.power * (1 - panel.degradation / (24 * 365)) }
  (pout * time_step, panel')

/-- State of a `Battery` object: constructor parameters `capacity`, `max_power`,
`efficiency`, plus the mutable state of charge `soc` (0 at construction). -/
structure Battery where
  capacity : ℚ
  max_power : ℚ
  efficiency : ℚ
  soc : ℚ
deriving DecidableEq

/-- `battery_sim(battery, e_sys)`: residual energy after one greedy dispatch
step, returned together with the updated battery state. `e_resid` and
`e_clamped` are the two values the source's inverter-limit block leaves in
`e_resid` and (reassigned) `e_sys`; note that in the source's `elif` branch
(`e_sys < -battery_emax`) the residual is `e_sys - battery_emax`, not
`e_sys + battery_emax` — this asymmetry is embedded as written. -/
def battery_sim (battery : Battery) (e_sys : ℚ) : ℚ × Battery :=
  let battery_emax := battery.max_power * time_step
  let e_resid : ℚ :=
    if e_sys > battery_emax then e_sys - battery_emax
    else if e_sys < -battery_emax then e_sys - battery_emax
    else 0
  let e_clamped : ℚ :=
    if e_sys > battery_emax then battery_emax
    else if e_sys < -battery_emax then -battery_emax
    else e_sys
  let e_tot := battery.soc * battery.capacity + e_clamped
  if e_tot > battery.capacity then
    (e_resid + battery.efficiency * (e_tot - battery.capacity), { battery with soc := 1 })
  else if e_tot < 0 then
    (e_resid + e_tot, { battery with soc := 0 })
  else if battery.capacity ≠ 0 then
    (e_resid, { battery with soc := e_tot / battery.capacity })
  else
    (e_resid, battery)

/-- Sequential dispatch of a list of net energies through one battery: the list
of residuals and the final battery state (the simulator's hourly loop calls
`battery_sim` once per hour on the same battery object). -/
def dispatch_run (b : Battery) : List ℚ → List ℚ × Battery
  | [] => ([], b)
  | e :: es =>
    let step := battery_sim b e
    let rest := dispatch_run step.2 es
    (step.1 :: rest.1, rest.2)

/-- The fields of a Python `datetime` that the tariff functions read: `month`
(1-12), `hour` (0-23) and `weekday()` (0 = Monday, ..., 6 = Sunday). -/
structure PyTime where
  month : ℕ
  hour : ℕ
  weekday : ℕ
deriving DecidableEq

/-- Accumulator state of an `EnergyPlan` object: `peak` (peak power ever seen,
used only by the unimplemented E-27 plan), `daily_peaks` (peak imported energy
during peak hours for each simulated day, used by E-15) and `usage_cost` (the
running cost of the open billing period). -/
structure PlanState where
  peak : ℚ
  daily_peaks : List ℚ
  usage_cost : ℚ
deriving DecidableEq

/-- `EnergyPlan.reset()`: the state after a reset. The `EnergyPlan` constructor
calls `reset()` before attaching the plan functions, so this is also the state
of a freshly constructed plan. -/
def PlanState.reset : PlanState := ⟨0, [], 0⟩

/-- `e13_usage(self, time, energy)`: hourly cost accumulation of the SRP E-13
plan. Rates are the source's float literals as exact rationals. -/
def e13_usage (s : PlanState) (time : PyTime) (energy : ℚ) : PlanState :=
  if energy > 0 then
    if time.month = 7 ∨ time.month = 8 then
      if 14 ≤ time.hour ∧ time.hour < 20 ∧ time.weekday < 5 then
        { s with usage_cost := s.usage_cost + energy * (2409 / 10000) }
      else
        { s with usage_cost := s.usage_cost + energy * (730 / 10000) }
    else if time.month ≤ 4 ∨ 11 ≤ time.month then
      if ((5 ≤ time.hour ∧ time.hour < 9) ∨ (17 ≤ time.hour ∧ time.hour < 21)) ∧
          time.weekday < 5 then
        { s with usage_cost := s.usage_cost + energy * (951 / 10000) }
      else
        { s with usage_cost := s.usage_cost + energy * (691 / 10000) }
    else
      if 14 ≤ time.hour ∧ time.hour < 20 ∧ time.weekday < 5 then
        { s with usage_cost := s.usage_cost + energy * (2094 / 10000) }
      else
        { s with usage_cost := s.usage_cost + energy * (727 / 10000) }
  else
    { s with usage_cost := s.usage_cost + energy * (281 / 10000) }

/-- `e13_total(self, time)`: the E-13 bill for the period, paired with the
state left behind by the `self.reset()` call made before returning. -/
def e13_total (s : PlanState) (time : PyTime) : ℚ × PlanState :=
  let service_charge : ℚ := 3244 / 100
  let total_cost := if s.usage_cost > 0 then service_charge + s.usage_cost else service_charge
  (total_cost, PlanState.reset)

/-- The statement pair `if energy > self.daily_peaks[-1]: self.daily_peaks[-1]
= energy` from `e15_usage`. Reading `[-1]` from an empty Python list raises
`IndexError`, modelled as `none`. -/
def peakUpdate (l : List ℚ) (energy : ℚ) : Option (List ℚ) :=
  match l.getLast? with
  | none => none
  | some last => some (if energy > last then l.dropLast ++ [energy] else l)

/-- `e15_usage(self, time, energy)`: hourly cost accumulation of the SRP E-15
plan. At hour 0 a zero is appended to `daily_peaks`; in the three on-peak
branches the cost update is followed by the daily-peak update (`none` models
the `IndexError` Python would raise there on an empty `daily_peaks`). -/
def e15_usage (s : PlanState) (time : PyTime) (energy : ℚ) : Option PlanState :=
  let s := if time.hour = 0 then { s with daily_peaks := s.daily_peaks ++ [(0 : ℚ)] } else s
  if time.month = 7 ∨ time.month = 8 then
    if 14 ≤ time.hour ∧ time.hour < 20 ∧ time.weekday < 5 then
      let s := { s with usage_cost := s.usage_cost + energy * (622 / 10000) }
      (peakUpdate s.daily_peaks energy).map fun l => { s with daily_peaks := l }
    else
      some { s with usage_cost := s.usage_cost + energy * (412 / 10000) }
  else if time.month ≤ 4 ∨ 11 ≤ time.month then
    if ((5 ≤ time.hour ∧ time.hour < 9) ∨ (17 ≤ time.hour ∧ time.hour < 21)) ∧
        time.weekday < 5 then
      let s := { s with usage_cost := s.usage_cost + energy * (410 / 10000) }
      (peakUpdate s.daily_peaks energy).map fun l => { s with daily_peaks := l }
    else
      some { s with usage_cost := s.usage_cost + energy * (370 / 10000) }
  else
    if 14 ≤ time.hour ∧ time.hour < 20 ∧ time.weekday < 5 then
      let s := { s with usage_cost := s.usage_cost + energy * (462 / 10000) }
      (peakUpdate s.daily_peaks energy).map fun l => { s with daily_peaks := l }
    else
      some { s with usage_cost := s.usage_cost + energy * (360 / 10000) }

/-- The on-peak predicate of `e15_usage`: the branch conditions under which the
source takes an on-peak branch (summer/winter windows, weekday only). -/
def onPeakE15 (t : PyTime) : Bool :=
  if t.month = 7 ∨ t.month = 8 then
    decide (14 ≤ t.hour ∧ t.hour < 20 ∧ t.weekday < 5)
  else if t.month ≤ 4 ∨ 11 ≤ t.month then
    decide (((5 ≤ t.hour ∧ t.hour < 9) ∨ (17 ≤ t.hour ∧ t.hour < 21)) ∧ t.weekday < 5)
  else
    decide (14 ≤ t.hour ∧ t.hour < 20 ∧ t.weekday < 5)

/-- The seasonal demand-charge rate selected by `e15_total` from the month of
the settlement timestamp. -/
def e15_demand_rate (t : PyTime) : ℚ :=
  if t.month = 7 ∨ t.month = 8 then 2194 / 100
  else if t.month ≤ 4 ∨ 11 ≤ t.month then 1929 / 100
  else 813 / 100

/-- `np.mean` on a list of rationals: `none` for the empty list, where NumPy
produces the float `nan` (with a warning, not an exception). -/
def npMean (l : List ℚ) : Option ℚ :=
  if l.isEmpty then none else some (l.sum / l.length)

/-- `e15_total(self, time)`: the E-15 bill for the period, paired with the
state left by `self.reset()`. When `daily_peaks` is empty, `np.mean` yields
`nan`; `nan` propagates through the `* rate` product and makes the comparison
`self.usage_cost + average_peak_charge > 0.0` evaluate to `False`, so the
source returns the bare service charge — the `none` branch embeds exactly that
control flow. -/
def e15_total (s : PlanState) (time : PyTime) : ℚ × PlanState :=
  let service_charge : ℚ := 3244 / 100
  let average_peak_charge : Option ℚ := (npMean s.daily_peaks).map (· * e15_demand_rate time)
  let total_cost :=
    match average_peak_charge with
    | some apc =>
        if s.usage_cost + apc > 0 then service_charge + s.usage_cost + apc else service_charge
    | none => service_charge
  (total_cost, PlanState.reset)

/-- Sequence of `e15_usage` calls (the simulator calls the plan's usage
function once per hour on the same accumulator object). -/
def e15_run (s : PlanState) : List (PyTime × ℚ) → Option PlanState
  | [] => some s
  | (t, e) :: rest =>
    match e15_usage s t e with
    | none => none
    | some s' => e15_run s' rest

/-- One simulated summer weekday (month 7, weekday 2) of hourly samples where
hour 15 imports 5 kWh and every other hour imports 0. -/
def c7_day : List (PyTime × ℚ) :=
  (List.range 24).map fun h => (⟨7, h, 2⟩, if h = 15 then 5 else 0)

/-- Exception values the simulator's daily loop can produce; the claim's
`DataIntegrityError` is included so that its absence can be stated. -/
inductive PyExc where
  | nameError (name : String)
  | indexError
  | valueError (msg : String)
  | dataIntegrityError
deriving DecidableEq

/-- One row of the utility load CSV as the loop reads it:
`['1/1/2020', '12:0 am', '1.2']`. -/
structure LoadRow where
  date : String
  timeOfDay : String
  energy : String
deriving DecidableEq

/-- Lines 294-305 of `calc.py`: the start of each daily loop iteration, up to
and including the timestamp-mismatch check. Line 298 binds `load_data_today =
load_data[day_idx]` (an `IndexError` when `day_idx` is out of range); line 300
then evaluates `datetime.strptime(f'\x7bload_data_now[0]\x7d ...')`, whose
argument reads `load_data_now` — a name no statement in the program ever
binds — so every iteration that reaches line 300 stops with a `NameError`
before the timestamps are compared. -/
def sim_loop_check (day_idx : ℕ) (load_data : List LoadRow) : Except PyExc Unit :=
  match load_data.get? day_idx with
  | none => .error .indexError
  | some _ => .error (.nameError ("load_data_now"))

/-- The exception the `raise` statement at line 305 of `calc.py` would
construct on a timestamp mismatch: a plain `ValueError`, not a
`DataIntegrityError`. -/
def mismatch_raise : PyExc :=
  .valueError ("solar and utility date/time mismatch")

lemma battery_sim_capacity (b : Battery) (e : ℚ) :
    (battery_sim b e).2.capacity = b.capacity := by
  simp only [battery_sim]
  split_ifs <;> rfl

lemma battery_sim_max_power (b : Battery) (e : ℚ) :
    (battery_sim b e).2.max_power = b.max_power := by
  simp only [battery_sim]
  split_ifs <;> rfl

lemma battery_sim_efficiency (b : Battery) (e : ℚ) :
    (battery_sim b e).2.efficiency = b.efficiency := by
  simp only [battery_sim]
  split_ifs <;> rfl

lemma battery_sim_conserves (b : Battery) (e : ℚ) (heff : b.efficiency = 1)
    (hcap : 0 ≤ b.capacity) (hmp : 0 ≤ b.max_power)
    (he : -(b.max_power * time_step) ≤ e) :
    (battery_sim b e).1 + ((battery_sim b e).2.soc * b.capacity - b.soc * b.capacity) = e := by
  simp only [battery_sim, time_step, mul_one] at he ⊢
  rw [heff]
  split_ifs
  all_goals dsimp only
  all_goals
    first
      | linarith
      | (rw [div_mul_cancel₀ _ (by assumption)]; linarith)
      | (rename_i hcz
         rw [not_not] at hcz
         simp only [hcz, mul_zero, zero_add, zero_sub, sub_zero] at *
         linarith)

/-- C2 helper: residual sum plus change in stored energy over a dispatch
sequence, for an efficiency-1 battery fed only energies the inverter's
lower clamp never touches. -/
lemma dispatch_run_conserves (b : Battery) (es : List ℚ) (heff : b.efficiency = 1)
    (hcap : 0 ≤ b.capacity) (hmp : 0 ≤ b.max_power)
    (hes : ∀ e ∈ es, -(b.max_power * time_step) ≤ e) :
    es.sum = (dispatch_run b es).1.sum +
      ((dispatch_run b es).2.soc * b.capacity - b.soc * b.capacity) := by
  induction es generalizing b with
  | nil => simp [dispatch_run]
  | cons e es ih =>
    simp only [dispatch_run, List.sum_cons]
    have h1 := battery_sim_conserves b e heff hcap hmp (hes e (by simp))
    have hc := battery_sim_capacity b e
    have hm := battery_sim_max_power b e
    have hf := battery_sim_efficiency b e
    have h2 := ih (battery_sim b e).2 (by rw [hf, heff]) (by rw [hc]; exact hcap)
      (by rw [hm]; exact hmp)
      (by intro x hx; rw [hm]; exact hes x (List.mem_cons_of_mem _ hx))
    rw [hc] at h2
    linarith

/-- C4 helper: the state of charge after a dispatch step is 1, 0, unchanged,
or a ratio `t / capacity` with `0 ≤ t ≤ capacity` and `capacity ≠ 0`. -/
lemma battery_sim_soc_cases (b : Battery) (e : ℚ) :
    (battery_sim b e).2.soc = 1 ∨ (battery_sim b e).2.soc = 0 ∨
    (battery_sim b e).2.soc = b.soc ∨
    ∃ t : ℚ, 0 ≤ t ∧ t ≤ b.capacity ∧ b.capacity ≠ 0 ∧
      (battery_sim b e).2.soc = t / b.capacity := by
  simp only [battery_sim]
  split_ifs
  all_goals
    first
      | (left; rfl)
      | (right; left; rfl)
      | (right; right; left; rfl)
      | (right; right; right; exact ⟨_, by linarith, by linarith, by assumption, rfl⟩)

/-- C1: dispatch at the spec's inverter-clamp scenario and at a
deficit beyond the inverter limit. `dispatch(10)` on the
`capacity=100, max_power=2, efficiency=0.9, soc=0` battery returns residual 8
and leaves `soc = 0.02`, as the claim states; but `dispatch(-10)` on the same
battery at `soc = 0.5` returns residual −12 (the source's `elif` branch
computes `e_sys - battery_emax`), not the −8 (`netEnergy + max_power ×
time_step`) the claim's symmetric clamp rule requires. -/
theorem C1_inverter_clamp_eval :
    battery_sim ⟨100, 2, 9/10, 0⟩ 10 = (8, ⟨100, 2, 9/10, 1/50⟩) ∧
    battery_sim ⟨100, 2, 9/10, 1/2⟩ (-10) = (-12, ⟨100, 2, 9/10, 12/25⟩) := by
  constructor <;>
    norm_num [battery_sim, time_step, Prod.ext_iff, Battery.mk.injEq]

/-- C2 counterexample: a single dispatch on a battery with round-trip
efficiency 0.9 destroys energy when the capacity saturates — the battery
`capacity=1, max_power=100, efficiency=0.9, soc=0` dispatched with 2 kWh
returns residual 0.9 and stores 1 kWh, and 0.9 + 1 ≠ 2. -/
theorem C2_counterexample :
    (battery_sim ⟨1, 100, 9/10, 0⟩ 2).1 +
      ((battery_sim ⟨1, 100, 9/10, 0⟩ 2).2.soc * 1 - 0 * 1) ≠ 2 := by
  norm_num [battery_sim, time_step]

/-- C2 (amended): energy conservation across battery dispatch holds exactly
for every battery with round-trip efficiency 1, capacity ≥ 0 and max_power ≥ 0,
over every finite sequence of net energies that never goes below
`-(max_power × time_step)`: the sum of the inputs equals the sum of the
returned residuals plus the total change in stored energy `soc × capacity`. -/
theorem C2_conservation (b : Battery) (es : List ℚ) (heff : b.efficiency = 1)
    (hcap : 0 ≤ b.capacity) (hmp : 0 ≤ b.max_power)
    (hes : ∀ e ∈ es, -(b.max_power * time_step) ≤ e) :
    es.sum = (dispatch_run b es).1.sum +
      ((dispatch_run b es).2.soc * b.capacity - b.soc * b.capacity) :=
  dispatch_run_conserves b es heff hcap hmp hes

/-- C2 witness: conservation at the concrete battery
`capacity=100, max_power=2, efficiency=1, soc=0` over the inputs 10 and −1. -/
theorem C2_conservation_witness :
    ((1 : ℚ) = 1 ∧ (0 : ℚ) ≤ 100 ∧ (0 : ℚ) ≤ 2 ∧
      ∀ e ∈ [(10 : ℚ), -1], -((2 : ℚ) * time_step) ≤ e) ∧
    List.sum [(10 : ℚ), -1] = (dispatch_run ⟨100, 2, 1, 0⟩ [10, -1]).1.sum +
      ((dispatch_run ⟨100, 2, 1, 0⟩ [10, -1]).2.soc * 100 - 0 * 100) := by
  refine ⟨⟨rfl, by norm_num, by norm_num, ?_⟩, ?_⟩
  · intro e he
    fin_cases he <;> norm_num [time_step]
  · exact C2_conservation ⟨100, 2, 1, 0⟩ [10, -1] rfl (by norm_num) (by norm_num)
      (by intro e he; fin_cases he <;> norm_num [time_step])

/-- C3 counterexample: a zero-capacity battery whose inverter limit is 2 kW and
whose efficiency is 0.9 is not a pass-through: `dispatch(10)` returns 9.8
(the clamped 2 kWh overflows the zero capacity and is efficiency-derated),
not 10. -/
theorem C3_counterexample : (battery_sim ⟨0, 2, 9/10, 0⟩ 10).1 ≠ 10 := by
  norm_num [battery_sim, time_step]

/-- C3 (amended): a battery constructed with capacity 0 and max_power 0 — the
source catalog's `Battery('None', 0, 0, 0)` — is a pure pass-through: for every
finite input and every efficiency setting, dispatch returns its input unchanged
and leaves the state of charge at its default 0. -/
theorem C3_zero_capacity_passthrough (f x : ℚ) :
    battery_sim ⟨0, 0, f, 0⟩ x = (x, ⟨0, 0, f, 0⟩) := by
  simp only [battery_sim, time_step]
  norm_num
  split_ifs <;> simp_all <;> linarith

/-- C4: the state-of-charge bounds invariant — for every battery with
`0 ≤ soc ≤ 1` and `capacity ≥ 0` and every net energy input, `0 ≤ soc ≤ 1`
still holds after a dispatch call. -/
theorem C4_soc_bounds (b : Battery) (e : ℚ) (h0 : 0 ≤ b.soc) (h1 : b.soc ≤ 1)
    (hcap : 0 ≤ b.capacity) :
    0 ≤ (battery_sim b e).2.soc ∧ (battery_sim b e).2.soc ≤ 1 := by
  rcases battery_sim_soc_cases b e with h | h | h | ⟨t, ht0, htc, hcz, h⟩ <;> rw [h]
  · norm_num
  · norm_num
  · exact ⟨h0, h1⟩
  · have hpos : 0 < b.capacity := lt_of_le_of_ne hcap (Ne.symm hcz)
    exact ⟨div_nonneg ht0 hcap, (div_le_one hpos).mpr htc⟩

/-- C4 witness: the invariant at the catalog's Tesla battery
(`capacity=13.5, max_power=5, efficiency=0.9`) at half charge, dispatched 7. -/
theorem C4_soc_bounds_witness :
    ((0 : ℚ) ≤ 1/2 ∧ (1/2 : ℚ) ≤ 1 ∧ (0 : ℚ) ≤ 27/2) ∧
    (0 ≤ (battery_sim ⟨27/2, 5, 9/10, 1/2⟩ 7).2.soc ∧
      (battery_sim ⟨27/2, 5, 9/10, 1/2⟩ 7).2.soc ≤ 1) :=
  ⟨⟨by norm_num, by norm_num, by norm_num⟩,
    C4_soc_bounds ⟨27/2, 5, 9/10, 1/2⟩ 7 (by norm_num) (by norm_num) (by norm_num)⟩

/-- C5: for both tariff variants, settle returns the fixed service charge 32.44
plus the accumulated amount (the usage cost for E-13; the usage cost plus
mean daily peak × seasonal demand rate for E-15, over a period with at least
one recorded day) when that amount is positive, exactly the service charge when
it is ≤ 0, and leaves behind the reset accumulator state — which is the state a
freshly constructed plan starts from, so a subsequent period behaves like a
fresh engine. -/
theorem C5_settlement (s : PlanState) (t : PyTime) :
    ((0 < s.usage_cost → (e13_total s t).1 = 3244 / 100 + s.usage_cost) ∧
     (s.usage_cost ≤ 0 → (e13_total s t).1 = 3244 / 100) ∧
     (e13_total s t).2 = PlanState.reset) ∧
    (s.daily_peaks ≠ [] →
      (0 < s.usage_cost + s.daily_peaks.sum / s.daily_peaks.length * e15_demand_rate t →
        (e15_total s t).1 =
          3244 / 100 + s.usage_cost +
            s.daily_peaks.sum / s.daily_peaks.length * e15_demand_rate t) ∧
      (s.usage_cost + s.daily_peaks.sum / s.daily_peaks.length * e15_demand_rate t ≤ 0 →
        (e15_total s t).1 = 3244 / 100) ∧
      (e15_total s t).2 = PlanState.reset) := by
  have hmean : ∀ hne : s.daily_peaks ≠ [],
      npMean s.daily_peaks = some (s.daily_peaks.sum / s.daily_peaks.length) := by
    intro hne
    simp [npMean, List.isEmpty_iff, hne]
  refine ⟨⟨?_, ?_, rfl⟩, fun hne => ⟨?_, ?_, rfl⟩⟩
  · intro h
    simp only [e13_total, if_pos h]
  · intro h
    simp only [e13_total, if_neg (not_lt.mpr h)]
  · intro h
    simp only [e15_total, hmean hne, Option.map_some']
    rw [if_pos h]
  · intro h
    simp only [e15_total, hmean hne, Option.map_some']
    rw [if_neg (not_lt.mpr h)]

/-- C5 witness: one positive-usage E-13 settlement, one net-credit E-13
settlement floored at the service charge, and one E-15 settlement combining
usage cost and mean daily peak, each at concrete accumulator states. -/
theorem C5_settlement_witness :
    (0 < (10 : ℚ) ∧ (e13_total ⟨0, [], 10⟩ ⟨7, 23, 4⟩).1 = 3244 / 100 + 10) ∧
    ((-5 : ℚ) ≤ 0 ∧ (e13_total ⟨0, [], -5⟩ ⟨7, 23, 4⟩).1 = 3244 / 100) ∧
    (([(4 : ℚ)] : List ℚ) ≠ [] ∧
      (e15_total ⟨0, [4], 10⟩ ⟨7, 23, 4⟩).1 =
        3244 / 100 + 10 + ([(4 : ℚ)].sum / ([(4 : ℚ)].length : ℚ)) * e15_demand_rate ⟨7, 23, 4⟩ ∧
      (e15_total ⟨0, [4], 10⟩ ⟨7, 23, 4⟩).2 = PlanState.reset) := by
  refine ⟨⟨by norm_num, ?_⟩, ⟨by norm_num, ?_⟩, by simp, ?_, ?_⟩
  · exact ((C5_settlement ⟨0, [], 10⟩ ⟨7, 23, 4⟩).1.1 (by norm_num))
  · exact ((C5_settlement ⟨0, [], -5⟩ ⟨7, 23, 4⟩).1.2.1 (by norm_num))
  · exact ((C5_settlement ⟨0, [4], 10⟩ ⟨7, 23, 4⟩).2 (by simp)).1
      (by norm_num [e15_demand_rate])
  · exact ((C5_settlement ⟨0, [4], 10⟩ ⟨7, 23, 4⟩).2 (by simp)).2.2

/-- C6: every `generate` call multiplies the rated power by exactly
`1 - annual_degradation_rate / (24 × 365)`, whatever the irradiance; for a
degradation rate in (0, 1) and non-negative rated power the new rated power
never exceeds the old one, never becomes negative, and strictly decreases
whenever the old rated power is positive. -/
theorem C6_degradation (p : SolarPanel) (irr temp_a : ℚ)
    (hd0 : 0 < p.degradation) (hd1 : p.degradation < 1) (hp : 0 ≤ p.power) :
    (solar_sim p irr temp_a).2.power = p.power * (1 - p.degradation / (24 * 365)) ∧
    (solar_sim p irr temp_a).2.power ≤ p.power ∧
    0 ≤ (solar_sim p irr temp_a).2.power ∧
    (0 < p.power → (solar_sim p irr temp_a).2.power < p.power) := by
  have hdpos : 0 < p.degradation / (24 * 365) := div_pos hd0 (by norm_num)
  have hdlt : p.degradation / (24 * 365) < 1 := by
    rw [div_lt_one (by norm_num)]
    linarith
  refine ⟨rfl, ?_, ?_, ?_⟩
  · show p.power * (1 - p.degradation / (24 * 365)) ≤ p.power
    nlinarith
  · show 0 ≤ p.power * (1 - p.degradation / (24 * 365))
    exact mul_nonneg hp (by linarith)
  · intro hppos
    show p.power * (1 - p.degradation / (24 * 365)) < p.power
    nlinarith

/-- C6 witness: degradation at the catalog's LG panel
(`degradation = 0.0033`, initial power `0.335 × 0.98`) on an hour with zero
irradiance. -/
theorem C6_degradation_witness :
    ((0 : ℚ) < 33/10000 ∧ (33 : ℚ)/10000 < 1 ∧ (0 : ℚ) ≤ 335/1000 * (98/100)) ∧
    (solar_sim ⟨335/1000 * (98/100), -36/10000, 33/10000, 42, 95/100⟩ 0 10).2.power =
      335/1000 * (98/100) * (1 - (33/10000) / (24 * 365)) :=
  ⟨⟨by norm_num, by norm_num, by norm_num⟩,
    (C6_degradation ⟨335/1000 * (98/100), -36/10000, 33/10000, 42, 95/100⟩ 0 10
      (by norm_num) (by norm_num) (by norm_num)).1⟩

/-- C8: `generate` returns
`rated_power × efficiency × (irradiance / 1) × (1 + tcp × (40 − 25)) ×
time_step`, computed from the rated power before the degradation update with
the constant cell temperature 40; the raw value is returned unclamped — at a
large negative temperature coefficient the returned energy is negative. -/
theorem C8_output_formula :
    (∀ (p : SolarPanel) (irr temp_a : ℚ),
      (solar_sim p irr temp_a).1 =
        p.power * p.efficiency * (irr / 1) * (1 + p.tcp * (40 - 25)) * time_step) ∧
    (solar_sim ⟨1, -1, 0, 0, 1⟩ 1 0).1 < 0 := by
  constructor
  · intro p irr temp_a
    show p.power * p.efficiency * irr / 1 * (1 + p.tcp * (40 - 25)) * time_step = _
    ring
  · norm_num [solar_sim, time_step]

/-- C9: settling the E-15 plan over a period whose daily-peak list is empty
does not raise — `np.mean([])` is `nan`, the positivity comparison on `nan` is
`False`, and the source silently returns the bare service charge 32.44 after
resetting, instead of treating the empty list as a fatal configuration
error. -/
theorem C9_empty_peaks_settle (s : PlanState) (t : PyTime) (h : s.daily_peaks = []) :
    e15_total s t = (3244 / 100, PlanState.reset) := by
  simp [e15_total, npMean, h]

/-- C9 witness: settling a freshly constructed E-15 plan (empty daily-peak
list) in July returns exactly the service charge. -/
theorem C9_empty_peaks_settle_witness :
    PlanState.reset.daily_peaks = [] ∧
    e15_total PlanState.reset ⟨7, 23, 4⟩ = (3244 / 100, PlanState.reset) :=
  ⟨rfl, C9_empty_peaks_settle PlanState.reset ⟨7, 23, 4⟩ rfl⟩

/-- C7 helper: an hour-0 accumulate call always succeeds (hour 0 lies in no
on-peak window) and appends a zero-initialized slot to the daily-peak list. -/
lemma e15_usage_hour0 (s : PlanState) (t : PyTime) (e : ℚ) (h0 : t.hour = 0) :
    ∃ s', e15_usage s t e = some s' ∧ s'.daily_peaks = s.daily_peaks ++ [0] := by
  simp only [e15_usage, h0, if_pos]
  norm_num
  split_ifs <;> exact ⟨_, rfl, rfl⟩

/-- C7 helper: an accumulate call outside every on-peak window and away from
hour 0 leaves the daily-peak list untouched. -/
lemma e15_usage_offpeak (s : PlanState) (t : PyTime) (e : ℚ) (s' : PlanState)
    (hop : onPeakE15 t = false) (h0 : t.hour ≠ 0) (heq : e15_usage s t e = some s') :
    s'.daily_peaks = s.daily_peaks := by
  simp only [e15_usage, if_neg h0] at heq
  simp only [onPeakE15] at hop
  split_ifs at heq with h1 h2 h3 h4 h5
  · rw [if_pos h1] at hop
    exact absurd h2 (by simpa using hop)
  · simp only [Option.some.injEq] at heq
    subst heq
    rfl
  · rw [if_neg h1, if_pos h3] at hop
    exact absurd h4 (by simpa using hop)
  · simp only [Option.some.injEq] at heq
    subst heq
    rfl
  · rw [if_neg h1, if_neg h3] at hop
    exact absurd h5 (by simpa using hop)
  · simp only [Option.some.injEq] at heq
    subst heq
    rfl

/-- C7 helper: if an accumulate call changes the daily-peak list beyond the
hour-0 zero append, the call was in an on-peak window and the energy was a
strictly positive import (given the invariant that recorded peaks are ≥ 0). -/
lemma e15_usage_raise (s : PlanState) (t : PyTime) (e : ℚ) (s' : PlanState)
    (hnn : ∀ x ∈ s.daily_peaks, 0 ≤ x) (heq : e15_usage s t e = some s')
    (hne : s'.daily_peaks ≠ (if t.hour = 0 then s.daily_peaks ++ [0] else s.daily_peaks)) :
    onPeakE15 t = true ∧ 0 < e := by
  by_cases h0 : t.hour = 0
  · rw [if_pos h0] at hne
    obtain ⟨s'', heq'', hdp⟩ := e15_usage_hour0 s t e h0
    rw [heq] at heq''
    injection heq'' with h
    subst h
    exact absurd hdp hne
  · rw [if_neg h0] at hne
    simp only [e15_usage, if_neg h0] at heq
    split_ifs at heq with h1 h2 h3 h4 h5
    case _ =>
      refine ⟨by simp only [onPeakE15, if_pos h1]; exact decide_eq_true h2, ?_⟩
      rcases hl : s.daily_peaks.getLast? with _ | last
      · simp [peakUpdate, hl] at heq
      · simp only [peakUpdate, hl, Option.map_some', Option.some.injEq] at heq
        subst heq
        by_cases hgt : e > last
        · exact lt_of_le_of_lt (hnn last (List.mem_of_mem_getLast? hl)) hgt
        · exact absurd (by simp [if_neg hgt]) hne
    case _ =>
      simp only [Option.some.injEq] at heq
      subst heq
      exact absurd rfl hne
    case _ =>
      refine ⟨by simp only [onPeakE15, if_neg h1, if_pos h3]; exact decide_eq_true h4, ?_⟩
      rcases hl : s.daily_peaks.getLast? with _ | last
      · simp [peakUpdate, hl] at heq
      · simp only [peakUpdate, hl, Option.map_some', Option.some.injEq] at heq
        subst heq
        by_cases hgt : e > last
        · exact lt_of_le_of_lt (hnn last (List.mem_of_mem_getLast? hl)) hgt
        · exact absurd (by simp [if_neg hgt]) hne
    case _ =>
      simp only [Option.some.injEq] at heq
      subst heq
      exact absurd rfl hne
    case _ =>
      refine ⟨by simp only [onPeakE15, if_neg h1, if_neg h3]; exact decide_eq_true h5, ?_⟩
      rcases hl : s.daily_peaks.getLast? with _ | last
      · simp [peakUpdate, hl] at heq
      · simp only [peakUpdate, hl, Option.map_some', Option.some.injEq] at heq
        subst heq
        by_cases hgt : e > last
        · exact lt_of_le_of_lt (hnn last (List.mem_of_mem_getLast? hl)) hgt
        · exact absurd (by simp [if_neg hgt]) hne
    case _ =>
      simp only [Option.some.injEq] at heq
      subst heq
      exact absurd rfl hne

/-- C7: E-15 daily demand tracking — an hour-0 accumulate call appends a new
zero-initialized daily-peak slot; a non-peak-hour call never updates the
daily-peak list (beyond that hour-0 append); any change to the list requires an
on-peak hour and a strictly positive (imported) energy; and for 24 hourly
calls over a summer weekday where only hour 15 imports 5 kWh, the recorded
daily peak is exactly 5. -/
theorem C7_demand_tracking :
    (∀ (s : PlanState) (t : PyTime) (e : ℚ), t.hour = 0 →
      ∃ s', e15_usage s t e = some s' ∧ s'.daily_peaks = s.daily_peaks ++ [0]) ∧
    (∀ (s : PlanState) (t : PyTime) (e : ℚ) (s' : PlanState), onPeakE15 t = false →
      t.hour ≠ 0 → e15_usage s t e = some s' → s'.daily_peaks = s.daily_peaks) ∧
    (∀ (s : PlanState) (t : PyTime) (e : ℚ) (s' : PlanState),
      (∀ x ∈ s.daily_peaks, 0 ≤ x) → e15_usage s t e = some s' →
      s'.daily_peaks ≠ (if t.hour = 0 then s.daily_peaks ++ [0] else s.daily_peaks) →
      onPeakE15 t = true ∧ 0 < e) ∧
    (e15_run PlanState.reset c7_day).map PlanState.daily_peaks = some [5] := by
  refine ⟨e15_usage_hour0, e15_usage_offpeak, e15_usage_raise, ?_⟩
  norm_num [c7_day, List.range_succ, e15_run, e15_usage, peakUpdate, PlanState.reset]

/-- C7 witness: the three conditional parts instantiated on concrete states —
an hour-0 call in July, an off-peak 3 a.m. call, and an on-peak 3 p.m. call
importing 5 kWh that raises the day's recorded peak from 0 to 5. -/
theorem C7_demand_tracking_witness :
    ((3 : ℕ) ≠ 0 ∧ onPeakE15 ⟨7, 3, 2⟩ = false ∧
      e15_usage ⟨0, [0], 0⟩ ⟨7, 3, 2⟩ 2 = some ⟨0, [0], 2 * (412 / 10000)⟩ ∧
      PlanState.daily_peaks ⟨0, [0], 2 * (412 / 10000)⟩ = PlanState.daily_peaks ⟨0, [0], 0⟩) ∧
    ((∀ x ∈ [(0 : ℚ)], 0 ≤ x) ∧
      e15_usage ⟨0, [0], 0⟩ ⟨7, 15, 2⟩ 5 = some ⟨0, [5], 5 * (622 / 10000)⟩ ∧
      PlanState.daily_peaks ⟨0, [5], 5 * (622 / 10000)⟩ ≠
        (if (15 : ℕ) = 0 then [(0 : ℚ)] ++ [0] else [(0 : ℚ)]) ∧
      onPeakE15 ⟨7, 15, 2⟩ = true ∧ (0 : ℚ) < 5) ∧
    (∃ s', e15_usage ⟨0, [], 0⟩ ⟨7, 0, 2⟩ 1 = some s' ∧
      s'.daily_peaks = PlanState.daily_peaks ⟨0, [], 0⟩ ++ [0]) := by
  have hoff : e15_usage ⟨0, [0], 0⟩ ⟨7, 3, 2⟩ 2 = some ⟨0, [0], 2 * (412 / 10000)⟩ := by
    norm_num [e15_usage]
  have hon : e15_usage ⟨0, [0], 0⟩ ⟨7, 15, 2⟩ 5 = some ⟨0, [5], 5 * (622 / 10000)⟩ := by
    norm_num [e15_usage, peakUpdate]
  refine ⟨⟨by norm_num, by decide, hoff, ?_⟩, ⟨?_, hon, ?_, ?_⟩, ?_⟩
  · exact C7_demand_tracking.2.1 ⟨0, [0], 0⟩ ⟨7, 3, 2⟩ 2 ⟨0, [0], 2 * (412 / 10000)⟩
      (by decide) (by norm_num) hoff
  · intro x hx
    simp only [List.mem_singleton] at hx
    simp [hx]
  · norm_num
  · exact C7_demand_tracking.2.2.1 ⟨0, [0], 0⟩ ⟨7, 15, 2⟩ 5 ⟨0, [5], 5 * (622 / 10000)⟩
      (by intro x hx; simp only [List.mem_singleton] at hx; simp [hx]) hon (by norm_num)
  · exact C7_demand_tracking.1 ⟨0, [], 0⟩ ⟨7, 0, 2⟩ 1 rfl

/-- C10: the simulator's daily loop never completes its timestamp-integrity
check — for every day index and load table it terminates exceptionally
(`IndexError` or `NameError`) before any timestamp comparison, it never
produces a `DataIntegrityError`, and even the mismatch `raise` statement
itself constructs a `ValueError`, not a `DataIntegrityError`. -/
theorem C10_mismatch_check_unreachable :
    (∀ (day_idx : ℕ) (load_data : List LoadRow) (u : Unit),
      sim_loop_check day_idx load_data ≠ .ok u) ∧
    (∀ (day_idx : ℕ) (load_data : List LoadRow),
      sim_loop_check day_idx load_data ≠ .error .dataIntegrityError) ∧
    mismatch_raise ≠ .dataIntegrityError := by
  refine ⟨fun day_idx load_data u => ?_, fun day_idx load_data => ?_, by simp [mismatch_raise]⟩
  · unfold sim_loop_check
    rcases load_data.get? day_idx with _ | r <;> simp
  · unfold sim_loop_check
    rcases load_data.get? day_idx with _ | r <;> simp

end Solar
